import Mathlib

/-!
Shallow embedding of the `color-picker-ratatui` application core
(src/main.rs, src/modal.rs, src/color_input.rs) and proofs of the
specified properties of its state machine.

Rust `String`s of hex digits are modelled as `List Char`; `usize`/`u8`/`u16`
are modelled as `Nat` (all arithmetic in the source is `saturating_sub`,
`+ 1` bounded by `min`, or in-range indexing, so no wraparound occurs; the
`u8` channel range is carried as explicit `< 256` hypotheses where it
matters). Rust `&mut self` methods become state-passing functions.
-/

namespace ColorPicker

/-- `ratatui::style::Color` (the variants of the upstream enum; only
`Rgb` carries channel values, which is all `color_to_hex` inspects). -/
inductive Color where
  | Reset
  | Black
  | Red
  | Green
  | Yellow
  | Blue
  | Magenta
  | Cyan
  | Gray
  | DarkGray
  | LightRed
  | LightGreen
  | LightYellow
  | LightBlue
  | LightMagenta
  | LightCyan
  | White
  | Rgb (r g b : Nat)
  | Indexed (i : Nat)
  deriving DecidableEq, Repr

/-- `crossterm::event::KeyCode`, restricted to the codes the handlers
inspect (every other code behaves like `Null` via the `_` arms). -/
inductive KeyCode where
  | Char (c : Char)
  | Backspace
  | Delete
  | Left
  | Right
  | Up
  | Down
  | Home
  | Tab
  | BackTab
  | Enter
  | Esc
  | Null
  deriving DecidableEq, Repr

/-- `crossterm::event::KeyEventKind`. -/
inductive KeyEventKind where
  | Press
  | Repeat
  | Release
  deriving DecidableEq, Repr

/-- `crossterm::event::KeyEvent` (modifiers are never read by any handler
in this program, so only `code` and `kind` are modelled). -/
structure KeyEvent where
  code : KeyCode
  kind : KeyEventKind
  deriving DecidableEq, Repr

/-- Rust `char::is_ascii_hexdigit`. -/
def isAsciiHexdigit (c : Char) : Bool :=
  (('0' ≤ c && c ≤ '9') || ('A' ≤ c && c ≤ 'F') || ('a' ≤ c && c ≤ 'f'))

/-- Rust `char::to_ascii_uppercase`. -/
def toAsciiUppercase (c : Char) : Char :=
  if 'a' ≤ c && c ≤ 'z' then Char.ofNat (c.toNat - 32) else c

/-- `src/color_input.rs`: `ColorInput { input, cursor_pos, focused }`. -/
structure ColorInput where
  input : List Char
  cursor_pos : Nat
  focused : Bool
  deriving DecidableEq, Repr

/-- `ColorInput::default()` (all fields `Default`). -/
def ColorInput.default : ColorInput :=
  { input := [], cursor_pos := 0, focused := false }

/-- `String::insert(idx, c)` on the in-range indices the program uses
(`idx ≤ len`; out of that range Rust panics, this model appends). -/
def insertAt : Nat → Char → List Char → List Char
  | 0, c, xs => c :: xs
  | _ + 1, c, [] => [c]
  | n + 1, c, x :: xs => x :: insertAt n c xs

/-- `String::remove(idx)` restricted to the string update (in-range at
every call site thanks to the guards; out of range Rust panics, this
model is the identity). -/
def removeAt : Nat → List Char → List Char
  | _, [] => []
  | 0, _ :: xs => xs
  | n + 1, x :: xs => x :: removeAt n xs

/-- `src/color_input.rs`: `ColorInput::handle_key_event`. -/
def ColorInput.handle_key_event (self : ColorInput) (key : KeyEvent) : ColorInput :=
  if key.kind ≠ KeyEventKind.Press then self
  else
    match key.code with
    | KeyCode.Char c =>
        if isAsciiHexdigit c && self.input.length < 6 then
          { self with
            input := insertAt self.cursor_pos (toAsciiUppercase c) self.input
            cursor_pos := self.cursor_pos + 1 }
        else self
    | KeyCode.Backspace =>
        if self.cursor_pos > 0 then
          { self with
            input := removeAt (self.cursor_pos - 1) self.input
            cursor_pos := self.cursor_pos - 1 }
        else self
    | KeyCode.Left => { self with cursor_pos := self.cursor_pos - 1 }
    | KeyCode.Delete =>
        if self.cursor_pos < self.input.length then
          { self with input := removeAt self.cursor_pos self.input }
        else self
    | KeyCode.Home => { self with cursor_pos := 0 }
    | KeyCode.Right => { self with cursor_pos := min (self.cursor_pos + 1) self.input.length }
    | _ => self

/-- Modelled from the spec: `ColorInput::is_valid`, which is called at
src/modal.rs line 268 but whose definition is not among the supplied
sources. Per the spec (§4.2): "true iff length is exactly 6 and every
character is a hex digit". -/
def ColorInput.is_valid (self : ColorInput) : Bool :=
  self.input.length == 6 && self.input.all isAsciiHexdigit

/-- `src/modal.rs`: `enum Focus`. -/
inductive Focus where
  | Grid
  | Input
  | Apply
  | Cancel
  deriving DecidableEq, Repr

/-- `Focus::default()`. -/
def Focus.default : Focus := Focus.Grid

/-- `ratatui::style::palette::material::AccentedPalette` (the ten accent
swatches each hue palette carries; the fields the program reads). -/
structure AccentedPalette where
  c50 : Color
  c100 : Color
  c200 : Color
  c300 : Color
  c400 : Color
  c500 : Color
  c600 : Color
  c700 : Color
  c800 : Color
  c900 : Color
  deriving DecidableEq, Repr

/-- Builds one hue palette of the external `ratatui` material table from
its ten accent RGB values (all entries of that table are `Color::Rgb`). -/
def mkPalette (v50 v100 v200 v300 v400 v500 v600 v700 v800 v900 : Nat) :
    AccentedPalette :=
  { c50 := Color.Rgb (v50 / 65536) (v50 / 256 % 256) (v50 % 256)
    c100 := Color.Rgb (v100 / 65536) (v100 / 256 % 256) (v100 % 256)
    c200 := Color.Rgb (v200 / 65536) (v200 / 256 % 256) (v200 % 256)
    c300 := Color.Rgb (v300 / 65536) (v300 / 256 % 256) (v300 % 256)
    c400 := Color.Rgb (v400 / 65536) (v400 / 256 % 256) (v400 % 256)
    c500 := Color.Rgb (v500 / 65536) (v500 / 256 % 256) (v500 % 256)
    c600 := Color.Rgb (v600 / 65536) (v600 / 256 % 256) (v600 % 256)
    c700 := Color.Rgb (v700 / 65536) (v700 / 256 % 256) (v700 % 256)
    c800 := Color.Rgb (v800 / 65536) (v800 / 256 % 256) (v800 % 256)
    c900 := Color.Rgb (v900 / 65536) (v900 / 256 % 256) (v900 % 256) }

/-! The sixteen hue palettes of `ratatui::style::palette::material` used by
`generate_colors` (an external fixed table; values are the 2014 Material
Design palette as shipped by ratatui, written as `0xRRGGBB`). -/

def RED : AccentedPalette :=
  mkPalette 0xFFEBEE 0xFFCDD2 0xEF9A9A 0xE57373 0xEF5350 0xF44336 0xE53935
    0xD32F2F 0xC62828 0xB71C1C

def PINK : AccentedPalette :=
  mkPalette 0xFCE4EC 0xF8BBD0 0xF48FB1 0xF06292 0xEC407A 0xE91E63 0xD81B60
    0xC2185B 0xAD1457 0x880E4F

def PURPLE : AccentedPalette :=
  mkPalette 0xF3E5F5 0xE1BEE7 0xCE93D8 0xBA68C8 0xAB47BC 0x9C27B0 0x8E24AA
    0x7B1FA2 0x6A1B9A 0x4A148C

def DEEP_PURPLE : AccentedPalette :=
  mkPalette 0xEDE7F6 0xD1C4E9 0xB39DDB 0x9575CD 0x7E57C2 0x673AB7 0x5E35B1
    0x512DA8 0x4527A0 0x311B92

def INDIGO : AccentedPalette :=
  mkPalette 0xE8EAF6 0xC5CAE9 0x9FA8DA 0x7986CB 0x5C6BC0 0x3F51B5 0x3949AB
    0x303F9F 0x283593 0x1A237E

def BLUE : AccentedPalette :=
  mkPalette 0xE3F2FD 0xBBDEFB 0x90CAF9 0x64B5F6 0x42A5F5 0x2196F3 0x1E88E5
    0x1976D2 0x1565C0 0x0D47A1

def LIGHT_BLUE : AccentedPalette :=
  mkPalette 0xE1F5FE 0xB3E5FC 0x81D4FA 0x4FC3F7 0x29B6F6 0x03A9F4 0x039BE5
    0x0288D1 0x0277BD 0x01579B

def CYAN : AccentedPalette :=
  mkPalette 0xE0F7FA 0xB2EBF2 0x80DEEA 0x4DD0E1 0x26C6DA 0x00BCD4 0x00ACC1
    0x0097A7 0x00838F 0x006064

def TEAL : AccentedPalette :=
  mkPalette 0xE0F2F1 0xB2DFDB 0x80CBC4 0x4DB6AC 0x26A69A 0x009688 0x00897B
    0x00796B 0x00695C 0x004D40

def GREEN : AccentedPalette :=
  mkPalette 0xE8F5E9 0xC8E6C9 0xA5D6A7 0x81C784 0x66BB6A 0x4CAF50 0x43A047
    0x388E3C 0x2E7D32 0x1B5E20

def LIGHT_GREEN : AccentedPalette :=
  mkPalette 0xF1F8E9 0xDCEDC8 0xC5E1A5 0xAED581 0x9CCC65 0x8BC34A 0x7CB342
    0x689F38 0x558B2F 0x33691E

def LIME : AccentedPalette :=
  mkPalette 0xF9FBE7 0xF0F4C3 0xE6EE9C 0xDCE775 0xD4E157 0xCDDC39 0xC0CA33
    0xAFB42B 0x9E9D24 0x827717

def YELLOW : AccentedPalette :=
  mkPalette 0xFFFDE7 0xFFF9C4 0xFFF59D 0xFFF176 0xFFEE58 0xFFEB3B 0xFDD835
    0xFBC02D 0xF9A825 0xF57F17

def AMBER : AccentedPalette :=
  mkPalette 0xFFF8E1 0xFFECB3 0xFFE082 0xFFD54F 0xFFCA28 0xFFC107 0xFFB300
    0xFFA000 0xFF8F00 0xFF6F00

def ORANGE : AccentedPalette :=
  mkPalette 0xFFF3E0 0xFFE0B2 0xFFCC80 0xFFB74D 0xFFA726 0xFF9800 0xFB8C00
    0xF57C00 0xEF6C00 0xE65100

def DEEP_ORANGE : AccentedPalette :=
  mkPalette 0xFBE9E7 0xFFCCBC 0xFFAB91 0xFF8A65 0xFF7043 0xFF5722 0xF4511E
    0xE64A19 0xD84315 0xBF360D

/-- `src/modal.rs`: `ColorPickerWidget` (the state fields; rendering-only
code is outside the state machine and not modelled). -/
structure ColorPickerWidget where
  modal_state : Bool
  grid_index : Nat × Nat
  color_input : ColorInput
  focus : Focus
  colors : List Color
  grid_dimensions : Nat × Nat
  deriving DecidableEq, Repr

namespace ColorPickerWidget

/-- `ColorPickerWidget::focus_next`. -/
def focus_next (self : ColorPickerWidget) : ColorPickerWidget :=
  { self with
    focus :=
      match self.focus with
      | Focus.Grid => Focus.Input
      | Focus.Input => Focus.Apply
      | Focus.Apply => Focus.Cancel
      | Focus.Cancel => Focus.Grid }

/-- `ColorPickerWidget::focus_prev`. -/
def focus_prev (self : ColorPickerWidget) : ColorPickerWidget :=
  { self with
    focus :=
      match self.focus with
      | Focus.Grid => Focus.Cancel
      | Focus.Input => Focus.Grid
      | Focus.Apply => Focus.Input
      | Focus.Cancel => Focus.Apply }

/-- `ColorPickerWidget::selected_color`. -/
def selected_color (self : ColorPickerWidget) : Option Color :=
  let cols := self.grid_dimensions.2
  let idx := self.grid_index.1 * cols + self.grid_index.2
  self.colors.get? idx

/-- `ColorPickerWidget::get_color_for_accent`. -/
def get_color_for_accent (hue : AccentedPalette) (accent : Nat) : Color :=
  match accent with
  | 50 => hue.c50
  | 100 => hue.c100
  | 200 => hue.c200
  | 300 => hue.c300
  | 400 => hue.c400
  | 500 => hue.c500
  | 600 => hue.c600
  | 700 => hue.c700
  | 800 => hue.c800
  | 900 => hue.c900
  | _ => hue.c500

/-- The `hues` array of `generate_colors`. -/
def hues : List AccentedPalette :=
  [RED, PINK, PURPLE, DEEP_PURPLE, INDIGO, BLUE, LIGHT_BLUE, CYAN, TEAL,
    GREEN, LIGHT_GREEN, LIME, YELLOW, AMBER, ORANGE, DEEP_ORANGE]

/-- The `accents` array of `generate_colors`. -/
def accents : List Nat :=
  [50, 100, 200, 300, 400, 500, 600, 700, 800, 900]

/-- `ColorPickerWidget::generate_colors` (the accent-major double loop
as a list comprehension). -/
def generate_colors : List Color × (Nat × Nat) :=
  (accents.flatMap fun accent => hues.map fun hue => get_color_for_accent hue accent,
    (accents.length, hues.length))

/-- Two-digit zero-padded uppercase hex image of one `u8` channel
(Rust `format!("{r:02X}")` for a value below 256). -/
def hexDigitChar (n : Nat) : Char :=
  if n < 10 then Char.ofNat (48 + n) else Char.ofNat (55 + n)

def toHex2 (n : Nat) : List Char :=
  [hexDigitChar (n / 16), hexDigitChar (n % 16)]

/-- `ColorPickerWidget::color_to_hex`. -/
def color_to_hex (color : Color) : Option (List Char) :=
  match color with
  | Color.Rgb r g b => some (toHex2 r ++ toHex2 g ++ toHex2 b)
  | _ => none

/-- `impl Default for ColorPickerWidget`. -/
def default : ColorPickerWidget :=
  let (colors, grid_dimensions) := generate_colors
  { modal_state := false
    grid_index := (0, 0)
    color_input := ColorInput.default
    focus := Focus.default
    colors := colors
    grid_dimensions := grid_dimensions }

end ColorPickerWidget

/-- `src/main.rs`: `Model`. -/
structure Model where
  color_picker : ColorPickerWidget
  deriving DecidableEq, Repr

/-- `Model::default()`. -/
def Model.default : Model :=
  { color_picker := ColorPickerWidget.default }

/-- `src/main.rs`: `enum Message`. -/
inductive Message where
  | KeyPress (key : KeyEvent)
  | ToggleModal
  | ApplyColor
  | UpdateColorFromGrid
  | CancelColorSelection
  | FocusNext
  | FocusPrev
  | Quit
  | Ignore
  deriving DecidableEq, Repr

/-- `src/main.rs`: `KeyHandler::handle_global_keys`. -/
def handle_global_keys (key : KeyEvent) : Option Message :=
  match key.code with
  | KeyCode.Esc => some Message.Quit
  | KeyCode.Char c =>
      if c = 'q' ∨ c = 'Q' then some Message.Quit
      else if c = 'p' ∨ c = 'P' then some Message.ToggleModal
      else none
  | _ => none

/-- `src/main.rs`: `KeyHandler::update_grid_position` (takes `&mut Model`;
`saturating_sub` on `usize` is truncated subtraction on `Nat`; the
source marks non-arrow codes `unreachable!()` — every caller guards on
arrow keys — so the model leaves the cursor unchanged there). -/
def update_grid_position (model : Model) (key_code : KeyCode) : Model :=
  let row := model.color_picker.grid_index.1
  let col := model.color_picker.grid_index.2
  let rows := model.color_picker.grid_dimensions.1
  let cols := model.color_picker.grid_dimensions.2
  let max_row := rows - 1
  let max_col := cols - 1
  let rc :=
    match key_code with
    | KeyCode.Up => (row - 1, col)
    | KeyCode.Down => (min (row + 1) max_row, col)
    | KeyCode.Left => (row, col - 1)
    | KeyCode.Right => (row, min (col + 1) max_col)
    | _ => (row, col)
  { model with color_picker := { model.color_picker with grid_index := rc } }

/-- `src/main.rs`: `KeyHandler::handle_modal_navigation` (takes
`&mut Model` and returns `Option<Message>`; modelled as the updated
model paired with the returned message). -/
def handle_modal_navigation (model : Model) (key : KeyEvent) :
    Model × Option Message :=
  if model.color_picker.focus ≠ Focus.Grid then (model, none)
  else
    match key.code with
    | KeyCode.Up | KeyCode.Down | KeyCode.Left | KeyCode.Right =>
        (update_grid_position model key.code, some Message.UpdateColorFromGrid)
    | _ => (model, none)

/-- `src/main.rs`: `KeyHandler::handle_modal_actions` (reads `&Model`). -/
def handle_modal_actions (model : Model) (key : KeyEvent) : Option Message :=
  match key.code with
  | KeyCode.Tab => some Message.FocusNext
  | KeyCode.BackTab => some Message.FocusPrev
  | KeyCode.Enter =>
      match model.color_picker.focus with
      | Focus.Apply => some Message.ApplyColor
      | Focus.Cancel => some Message.CancelColorSelection
      | _ => none
  | KeyCode.Esc => some Message.CancelColorSelection
  | _ => none

/-- `src/main.rs`: `KeyHandler::handle_input_keys` (takes `&mut Model`,
returns whether the key was consumed by the text field). -/
def handle_input_keys (model : Model) (key : KeyEvent) : Model × Bool :=
  if model.color_picker.focus = Focus.Input then
    ({ model with
        color_picker :=
          { model.color_picker with
            color_input := model.color_picker.color_input.handle_key_event key } },
      true)
  else (model, false)

/-- `src/main.rs`: `update_color_from_grid`. -/
def update_color_from_grid (model : Model) : Model :=
  match model.color_picker.selected_color with
  | some color =>
      match ColorPickerWidget.color_to_hex color with
      | some hex =>
          { model with
            color_picker :=
              { model.color_picker with
                color_input :=
                  { model.color_picker.color_input with
                    input := hex
                    cursor_pos := hex.length } } }
      | none => model
  | none => model

/-- `src/main.rs`: `toggle_modal`. -/
def toggle_modal (model : Model) : Model :=
  let model :=
    { model with
      color_picker :=
        { model.color_picker with
          modal_state := !model.color_picker.modal_state } }
  if model.color_picker.modal_state then update_color_from_grid model else model

/-- The arms of `src/main.rs`'s `update` for the non-`KeyPress` messages
(`Result<bool>` never carries an error in this program, so the return
type is the updated model and the continue flag). `handle_key_press`
re-enters `update` only ever with one of these messages, so splitting
them out unfolds that mutual recursion. -/
def update_simple (model : Model) (message : Message) : Model × Bool :=
  match message with
  | Message.UpdateColorFromGrid => (update_color_from_grid model, true)
  | Message.ApplyColor => (model, false)
  | Message.CancelColorSelection => (model, false)
  | Message.ToggleModal => (toggle_modal model, true)
  | Message.FocusNext =>
      ({ model with color_picker := model.color_picker.focus_next }, true)
  | Message.FocusPrev =>
      ({ model with color_picker := model.color_picker.focus_prev }, true)
  | Message.Quit => (model, false)
  | _ => (model, true)

/-- `src/main.rs`: `handle_key_press` (its recursive `update(model, msg)`
calls pass only non-`KeyPress` messages, embedded as `update_simple`). -/
def handle_key_press (model : Model) (key : KeyEvent) : Model × Bool :=
  match handle_global_keys key with
  | some message => update_simple model message
  | none =>
      if model.color_picker.modal_state then
        match handle_modal_navigation model key with
        | (model, some message) => update_simple model message
        | (model, none) =>
            match handle_modal_actions model key with
            | some message => update_simple model message
            | none =>
                match handle_input_keys model key with
                | (model, true) => (model, true)
                | (model, false) => (model, true)
      else (model, true)

/-- `src/main.rs`: `update` — one step of the host loop; the returned
`Bool` is the `running` flag (`false` stops the loop). -/
def update (model : Model) (message : Message) : Model × Bool :=
  match message with
  | Message.KeyPress key =>
      if key.kind = KeyEventKind.Press then handle_key_press model key
      else (model, true)
  | _ => update_simple model message

/-! Specification-side definitions used to state the properties. -/

/-- Uppercase hex digit (the alphabet `color_to_hex`'s output is claimed
to stay inside). -/
def isUpperHexDigit (c : Char) : Bool :=
  ('0' ≤ c && c ≤ '9') || ('A' ≤ c && c ≤ 'F')

/-- Numeric value of one hex digit character (re-parsing direction). -/
def hexDigitVal (c : Char) : Nat :=
  if '0' ≤ c && c ≤ '9' then c.toNat - 48
  else if 'A' ≤ c && c ≤ 'F' then c.toNat - 55
  else if 'a' ≤ c && c ≤ 'f' then c.toNat - 87
  else 0

/-- Value of a 2-digit hex pair. -/
def parseHex2 (a b : Char) : Nat :=
  16 * hexDigitVal a + hexDigitVal b

/-- Re-parse a 6-character hex string as three 2-digit channel values. -/
def parseHex6 (s : List Char) : Option (Nat × Nat × Nat) :=
  match s with
  | [a, b, c, d, e, f] => some (parseHex2 a b, parseHex2 c d, parseHex2 e f)
  | _ => none

/-- Cursor-bounds invariant of the palette grid (spec §3). -/
def inBounds (m : Model) : Prop :=
  m.color_picker.grid_index.1 < m.color_picker.grid_dimensions.1 ∧
  m.color_picker.grid_index.2 < m.color_picker.grid_dimensions.2

/-- Iterated grid moves (a whole sequence of cursor motions). -/
def applyMoves (ks : List KeyCode) (m : Model) : Model :=
  ks.foldl update_grid_position m

/-- Contract of one grid→field synchronization step (spec §3 invariant):
given the selected color `sel` and the pre-state field `preField`, the
post-state field `post` is the 6-digit hex rendering with cursor at
end-of-text when `sel` carries RGB channels, and is untouched
otherwise. -/
def syncSpec (sel : Option Color) (preField : ColorInput) (post : ColorInput) : Prop :=
  (∀ r g b, sel = some (Color.Rgb r g b) →
    post.input = ColorPickerWidget.toHex2 r ++ ColorPickerWidget.toHex2 g ++
      ColorPickerWidget.toHex2 b ∧
    post.cursor_pos = 6 ∧
    (r < 256 → g < 256 → b < 256 → post.is_valid = true)) ∧
  ((∀ r g b, sel ≠ some (Color.Rgb r g b)) → post = preField)

/-- Concrete state: default widget with the modal open and focus on the
hex field. -/
def openFieldModel : Model :=
  { color_picker :=
      { ColorPickerWidget.default with modal_state := true, focus := Focus.Input } }

/-- Concrete state: default widget with the modal open and focus on
Apply. -/
def openApplyModel : Model :=
  { color_picker :=
      { ColorPickerWidget.default with modal_state := true, focus := Focus.Apply } }

/-- Concrete state: default widget with the modal open and focus on
Cancel. -/
def openCancelModel : Model :=
  { color_picker :=
      { ColorPickerWidget.default with modal_state := true, focus := Focus.Cancel } }

/-! Helper lemmas. -/

theorem hexDigitChar_isHex :
    ∀ d, d < 16 → isAsciiHexdigit (ColorPickerWidget.hexDigitChar d) = true := by
  decide

theorem hexDigitChar_isUpper :
    ∀ d, d < 16 → isUpperHexDigit (ColorPickerWidget.hexDigitChar d) = true := by
  decide

theorem hexDigitVal_hexDigitChar :
    ∀ d, d < 16 → hexDigitVal (ColorPickerWidget.hexDigitChar d) = d := by
  decide

theorem parseHex2_toHex2 (n : Nat) (h : n < 256) :
    parseHex2 (ColorPickerWidget.hexDigitChar (n / 16))
      (ColorPickerWidget.hexDigitChar (n % 16)) = n := by
  rw [parseHex2, hexDigitVal_hexDigitChar _ (by omega),
    hexDigitVal_hexDigitChar _ (by omega)]
  omega

theorem insertAt_eq_take_drop (c : Char) :
    ∀ (n : Nat) (xs : List Char), n ≤ xs.length →
      insertAt n c xs = xs.take n ++ c :: xs.drop n := by
  intro n xs
  induction xs generalizing n with
  | nil =>
      intro h
      simp only [List.length_nil, Nat.le_zero] at h
      subst h
      simp [insertAt]
  | cons x xs ih =>
      intro h
      cases n with
      | zero => simp [insertAt]
      | succ n => simp [insertAt, ih n (by simpa using h)]

theorem update_color_from_grid_syncSpec (m : Model) :
    syncSpec m.color_picker.selected_color m.color_picker.color_input
      (update_color_from_grid m).color_picker.color_input := by
  constructor
  · intro r g b hsel
    simp only [update_color_from_grid, hsel, ColorPickerWidget.color_to_hex]
    refine ⟨trivial, by simp [ColorPickerWidget.toHex2], ?_⟩
    intro hr hg hb
    simp [ColorInput.is_valid, ColorPickerWidget.toHex2,
      hexDigitChar_isHex _ (by omega : r / 16 < 16),
      hexDigitChar_isHex _ (by omega : r % 16 < 16),
      hexDigitChar_isHex _ (by omega : g / 16 < 16),
      hexDigitChar_isHex _ (by omega : g % 16 < 16),
      hexDigitChar_isHex _ (by omega : b / 16 < 16),
      hexDigitChar_isHex _ (by omega : b % 16 < 16)]
  · intro hne
    cases hsel : m.color_picker.selected_color with
    | none => simp [update_color_from_grid, hsel]
    | some c =>
        cases c with
        | Rgb r g b => exact absurd hsel (hne r g b)
        | _ => simp [update_color_from_grid, hsel, ColorPickerWidget.color_to_hex]

theorem update_color_from_grid_modal_state (m : Model) :
    (update_color_from_grid m).color_picker.modal_state =
      m.color_picker.modal_state := by
  cases hsel : m.color_picker.selected_color with
  | none => simp [update_color_from_grid, hsel]
  | some c =>
      cases hhex : ColorPickerWidget.color_to_hex c <;>
        simp [update_color_from_grid, hsel, hhex]

theorem update_grid_position_inBounds (m : Model) (kc : KeyCode)
    (h : inBounds m) : inBounds (update_grid_position m kc) := by
  obtain ⟨⟨ms, ⟨r, c⟩, ci, f, cs, ⟨rows, cols⟩⟩⟩ := m
  obtain ⟨h1, h2⟩ := h
  simp only [inBounds] at h1 h2 ⊢
  cases kc <;> simp [update_grid_position] <;> omega

theorem applyMoves_inBounds (ks : List KeyCode) :
    ∀ m : Model, inBounds m → inBounds (applyMoves ks m) := by
  induction ks with
  | nil => intro m h; simpa [applyMoves] using h
  | cons k ks ih =>
      intro m h
      simpa [applyMoves, List.foldl_cons] using
        ih _ (update_grid_position_inBounds m k h)

theorem inBounds_default : inBounds Model.default :=
  ⟨by decide, by decide⟩

/-! Claim theorems. -/

/-- C4: every Up/Down/Left/Right move of `update_grid_position`
preserves the cursor-bounds invariant `0 ≤ row < rows ∧ 0 ≤ col < cols`
(lower bounds are implicit in `Nat`), and hence every grid cursor
reachable from the initial (0,0) cursor of the default model by any
sequence of moves satisfies the bounds. -/
theorem C4_reachable_cursor_in_bounds :
    (∀ (m : Model) (kc : KeyCode),
      inBounds m → inBounds (update_grid_position m kc)) ∧
    (∀ ks : List KeyCode, inBounds (applyMoves ks Model.default)) :=
  ⟨fun m kc h => update_grid_position_inBounds m kc h,
   fun ks => applyMoves_inBounds ks Model.default ⟨by decide, by decide⟩⟩

theorem C4_reachable_cursor_in_bounds_witness :
    inBounds (update_grid_position Model.default KeyCode.Down) ∧
    inBounds (applyMoves [KeyCode.Right, KeyCode.Down, KeyCode.Up] Model.default) :=
  ⟨C4_reachable_cursor_in_bounds.1 Model.default KeyCode.Down ⟨by decide, by decide⟩,
   C4_reachable_cursor_in_bounds.2 [KeyCode.Right, KeyCode.Down, KeyCode.Up]⟩

/-- C7: the focus rotation is a 4-cycle Grid→Input→Apply→Cancel→Grid:
from any starting state, `focus_next` applied four times is the
identity, and `focus_prev` is the exact two-sided inverse of
`focus_next`. -/
theorem C7_focus_rotation_cycle (w : ColorPickerWidget) :
    w.focus_next.focus_next.focus_next.focus_next = w ∧
    w.focus_next.focus_prev = w ∧
    w.focus_prev.focus_next = w := by
  obtain ⟨ms, gi, ci, f, cs, gd⟩ := w
  cases f <;> exact ⟨rfl, rfl, rfl⟩

/-- C8: a boundary move is a no-op on the whole state: for an in-bounds
cursor, Up from row 0, Down from the last row, Left from col 0 and Right
from the last col leave the model unchanged. -/
theorem C8_boundary_moves_noop (m : Model) (hb : inBounds m) :
    (m.color_picker.grid_index.1 = 0 →
      update_grid_position m KeyCode.Up = m) ∧
    (m.color_picker.grid_index.1 = m.color_picker.grid_dimensions.1 - 1 →
      update_grid_position m KeyCode.Down = m) ∧
    (m.color_picker.grid_index.2 = 0 →
      update_grid_position m KeyCode.Left = m) ∧
    (m.color_picker.grid_index.2 = m.color_picker.grid_dimensions.2 - 1 →
      update_grid_position m KeyCode.Right = m) := by
  obtain ⟨⟨ms, ⟨r, c⟩, ci, f, cs, ⟨rows, cols⟩⟩⟩ := m
  obtain ⟨h1, h2⟩ := hb
  simp only [inBounds] at h1 h2
  refine ⟨fun h => ?_, fun h => ?_, fun h => ?_, fun h => ?_⟩ <;>
    simp only at h <;>
    simp [update_grid_position, Model.mk.injEq, ColorPickerWidget.mk.injEq,
      Prod.mk.injEq] <;>
    omega

theorem C8_boundary_moves_noop_witness :
    update_grid_position Model.default KeyCode.Up = Model.default ∧
    update_grid_position Model.default KeyCode.Left = Model.default :=
  ⟨(C8_boundary_moves_noop Model.default ⟨by decide, by decide⟩).1 (by decide),
   (C8_boundary_moves_noop Model.default ⟨by decide, by decide⟩).2.2.1 (by decide)⟩

/-- C9: mutation is compartmentalized — a grid move changes only the
grid cursor (hex field, focus, visibility, colors, dimensions are
untouched), and a key event routed to the hex field while focus is on
the field changes only the field (grid cursor, colors, dimensions,
focus, visibility are untouched; the event is reported consumed). -/
theorem C9_mutation_compartmentalized :
    (∀ (m : Model) (kc : KeyCode),
      (update_grid_position m kc).color_picker.color_input =
        m.color_picker.color_input ∧
      (update_grid_position m kc).color_picker.focus = m.color_picker.focus ∧
      (update_grid_position m kc).color_picker.modal_state =
        m.color_picker.modal_state ∧
      (update_grid_position m kc).color_picker.colors = m.color_picker.colors ∧
      (update_grid_position m kc).color_picker.grid_dimensions =
        m.color_picker.grid_dimensions) ∧
    (∀ (m : Model) (key : KeyEvent), m.color_picker.focus = Focus.Input →
      (handle_input_keys m key).1.color_picker.grid_index =
        m.color_picker.grid_index ∧
      (handle_input_keys m key).1.color_picker.colors = m.color_picker.colors ∧
      (handle_input_keys m key).1.color_picker.grid_dimensions =
        m.color_picker.grid_dimensions ∧
      (handle_input_keys m key).1.color_picker.focus = m.color_picker.focus ∧
      (handle_input_keys m key).1.color_picker.modal_state =
        m.color_picker.modal_state ∧
      (handle_input_keys m key).2 = true) := by
  constructor
  · intro m kc
    exact ⟨rfl, rfl, rfl, rfl, rfl⟩
  · intro m key hf
    simp [handle_input_keys, hf]

theorem C9_mutation_compartmentalized_witness :
    (handle_input_keys openFieldModel
        ⟨KeyCode.Char 'A', KeyEventKind.Press⟩).1.color_picker.grid_index =
      openFieldModel.color_picker.grid_index :=
  (C9_mutation_compartmentalized.2 openFieldModel
    ⟨KeyCode.Char 'A', KeyEventKind.Press⟩ rfl).1

/-- C5: `color_to_hex` of an RGB color with channels below 256 yields a
6-character string of uppercase hex digits whose re-parsing as three
2-digit values recovers the channels exactly; every non-RGB color maps
to `none`. -/
theorem C5_color_to_hex_roundtrip (r g b : Nat)
    (hr : r < 256) (hg : g < 256) (hb : b < 256) :
    (∃ s, ColorPickerWidget.color_to_hex (Color.Rgb r g b) = some s ∧
      s.length = 6 ∧ s.all isUpperHexDigit = true ∧
      parseHex6 s = some (r, g, b)) ∧
    (∀ c : Color, (∀ r2 g2 b2, c ≠ Color.Rgb r2 g2 b2) →
      ColorPickerWidget.color_to_hex c = none) := by
  constructor
  · refine ⟨_, rfl, ?_, ?_, ?_⟩
    · simp [ColorPickerWidget.toHex2]
    · simp [ColorPickerWidget.toHex2, List.all,
        hexDigitChar_isUpper _ (by omega : r / 16 < 16),
        hexDigitChar_isUpper _ (by omega : r % 16 < 16),
        hexDigitChar_isUpper _ (by omega : g / 16 < 16),
        hexDigitChar_isUpper _ (by omega : g % 16 < 16),
        hexDigitChar_isUpper _ (by omega : b / 16 < 16),
        hexDigitChar_isUpper _ (by omega : b % 16 < 16)]
    · simp [ColorPickerWidget.toHex2, parseHex6,
        parseHex2_toHex2 r hr, parseHex2_toHex2 g hg, parseHex2_toHex2 b hb]
  · intro c h
    cases c <;> first | rfl | exact absurd rfl (h _ _ _)

theorem C5_color_to_hex_roundtrip_witness :
    (∃ s, ColorPickerWidget.color_to_hex (Color.Rgb 255 0 16) = some s ∧
      s.length = 6 ∧ s.all isUpperHexDigit = true ∧
      parseHex6 s = some (255, 0, 16)) ∧
    (∀ c : Color, (∀ r2 g2 b2, c ≠ Color.Rgb r2 g2 b2) →
      ColorPickerWidget.color_to_hex c = none) :=
  C5_color_to_hex_roundtrip 255 0 16 (by decide) (by decide) (by decide)

/-- C6: a character key on the hex field inserts exactly when the
character is an ASCII hex digit and the field holds fewer than 6
characters: the upper-cased character lands at the cursor offset and the
cursor advances by one; a non-hex character or a full field leaves the
field untouched. -/
theorem C6_hex_field_insert (ci : ColorInput) (c : Char)
    (hcur : ci.cursor_pos ≤ ci.input.length) :
    (isAsciiHexdigit c = true → ci.input.length < 6 →
      (ci.handle_key_event ⟨KeyCode.Char c, KeyEventKind.Press⟩).input =
        ci.input.take ci.cursor_pos ++
          toAsciiUppercase c :: ci.input.drop ci.cursor_pos ∧
      (ci.handle_key_event ⟨KeyCode.Char c, KeyEventKind.Press⟩).cursor_pos =
        ci.cursor_pos + 1) ∧
    ((isAsciiHexdigit c = false ∨ 6 ≤ ci.input.length) →
      ci.handle_key_event ⟨KeyCode.Char c, KeyEventKind.Press⟩ = ci) := by
  constructor
  · intro h1 h2
    refine ⟨?_, ?_⟩ <;> simp [ColorInput.handle_key_event, h1, h2]
    exact insertAt_eq_take_drop (toAsciiUppercase c) ci.cursor_pos ci.input hcur
  · intro h
    rcases h with h | h
    · simp [ColorInput.handle_key_event, h]
    · have hnl : ¬ ci.input.length < 6 := Nat.not_lt.mpr h
      simp [ColorInput.handle_key_event, hnl]

theorem C6_hex_field_insert_witness :
    (ColorInput.handle_key_event ⟨['1', '2'], 1, false⟩
      ⟨KeyCode.Char 'a', KeyEventKind.Press⟩).input = ['1', 'A', '2'] ∧
    (ColorInput.handle_key_event ⟨['1', '2'], 1, false⟩
      ⟨KeyCode.Char 'a', KeyEventKind.Press⟩).cursor_pos = 2 ∧
    ColorInput.handle_key_event ⟨['1', '2'], 1, false⟩
      ⟨KeyCode.Char 'z', KeyEventKind.Press⟩ = ⟨['1', '2'], 1, false⟩ := by
  have h1 := (C6_hex_field_insert ⟨['1', '2'], 1, false⟩ 'a'
    (by decide)).1 (by decide) (by decide)
  have h2 := (C6_hex_field_insert ⟨['1', '2'], 1, false⟩ 'z'
    (by decide)).2 (Or.inl (by decide))
  exact ⟨by simpa using h1.1, by simpa using h1.2, h2⟩

theorem handle_key_press_arrow (m : Model) (kc : KeyCode)
    (h : m.color_picker.modal_state = true)
    (hf : m.color_picker.focus = Focus.Grid)
    (harrow : kc = KeyCode.Up ∨ kc = KeyCode.Down ∨ kc = KeyCode.Left ∨
      kc = KeyCode.Right) :
    handle_key_press m ⟨kc, KeyEventKind.Press⟩ =
      (update_color_from_grid (update_grid_position m kc), true) := by
  obtain rfl | rfl | rfl | rfl := harrow <;>
    simp [handle_key_press, handle_global_keys, h,
      handle_modal_navigation, hf, update_simple]

/-- C3: whenever the modal transitions open (via `toggle_modal` from a
closed state), and whenever an arrow key moves the grid cursor while the
modal is open with focus on the grid, the hex field is re-synchronized
to the (post-move) selected color per `syncSpec`: overwritten with the
6-digit hex rendering with cursor at end-of-text (and then valid) when
that color carries RGB channels, untouched otherwise. -/
theorem C3_sync_invariant :
    (∀ m : Model, m.color_picker.modal_state = false →
      (toggle_modal m).color_picker.modal_state = true ∧
      syncSpec m.color_picker.selected_color m.color_picker.color_input
        (toggle_modal m).color_picker.color_input) ∧
    (∀ (m : Model) (kc : KeyCode), m.color_picker.modal_state = true →
      m.color_picker.focus = Focus.Grid →
      (kc = KeyCode.Up ∨ kc = KeyCode.Down ∨ kc = KeyCode.Left ∨
        kc = KeyCode.Right) →
      syncSpec (update_grid_position m kc).color_picker.selected_color
        m.color_picker.color_input
        (handle_key_press m ⟨kc, KeyEventKind.Press⟩).1.color_picker.color_input) := by
  constructor
  · intro m h
    have hms : toggle_modal m =
        update_color_from_grid
          { color_picker := { m.color_picker with modal_state := true } } := by
      simp [toggle_modal, h]
    rw [hms]
    refine ⟨by rw [update_color_from_grid_modal_state], ?_⟩
    exact update_color_from_grid_syncSpec
      { color_picker := { m.color_picker with modal_state := true } }
  · intro m kc h hf harrow
    rw [handle_key_press_arrow m kc h hf harrow]
    exact update_color_from_grid_syncSpec (update_grid_position m kc)

theorem C3_sync_invariant_witness :
    (toggle_modal Model.default).color_picker.modal_state = true ∧
    syncSpec Model.default.color_picker.selected_color
      Model.default.color_picker.color_input
      (toggle_modal Model.default).color_picker.color_input :=
  C3_sync_invariant.1 Model.default rfl

/-- C1 counterexample: with the modal open and focus on the hex field,
Esc does not close the modal with the loop continuing — the global key
handler intercepts Esc as Quit before the modal handlers run, so the
update step reports the loop should stop and the visibility flag stays
true. -/
theorem C1_esc_counterexample :
    ¬((update openFieldModel
          (Message.KeyPress ⟨KeyCode.Esc, KeyEventKind.Press⟩)).1.color_picker.modal_state =
        false ∧
      (update openFieldModel
          (Message.KeyPress ⟨KeyCode.Esc, KeyEventKind.Press⟩)).2 = true) := by
  decide

/-- C1 amended: with the modal open and focus on the hex field, Esc is
captured by `handle_global_keys` as the global quit: the update step
returns the state unchanged (so the visibility flag remains true) and
reports that the loop should stop. -/
theorem C1_esc_quits (m : Model)
    (_hvis : m.color_picker.modal_state = true)
    (_hfoc : m.color_picker.focus = Focus.Input) :
    update m (Message.KeyPress ⟨KeyCode.Esc, KeyEventKind.Press⟩) = (m, false) :=
  rfl

theorem C1_esc_quits_witness :
    update openFieldModel (Message.KeyPress ⟨KeyCode.Esc, KeyEventKind.Press⟩) =
      (openFieldModel, false) :=
  C1_esc_quits openFieldModel rfl rfl

/-- C2 counterexample: with the modal open and focus on Apply, Enter
does not leave the loop running with the visibility flag cleared — the
`ApplyColor` message makes `update` return `false` and the visibility
flag stays true. -/
theorem C2_enter_counterexample :
    ¬((update openApplyModel
          (Message.KeyPress ⟨KeyCode.Enter, KeyEventKind.Press⟩)).1.color_picker.modal_state =
        false ∧
      (update openApplyModel
          (Message.KeyPress ⟨KeyCode.Enter, KeyEventKind.Press⟩)).2 = true) := by
  decide

/-- C2 amended: with the modal open and focus on Apply (respectively
Cancel), Enter yields `ApplyColor` (respectively `CancelColorSelection`)
and the update step returns the state completely unchanged — grid
cursor, field contents, focus and the still-true visibility flag are all
retained — while reporting that the host loop should stop. -/
theorem C2_enter_stops_loop (m : Model)
    (hvis : m.color_picker.modal_state = true)
    (hfoc : m.color_picker.focus = Focus.Apply ∨
      m.color_picker.focus = Focus.Cancel) :
    update m (Message.KeyPress ⟨KeyCode.Enter, KeyEventKind.Press⟩) = (m, false) := by
  rcases hfoc with hf | hf <;>
    simp [update, handle_key_press, handle_global_keys, hvis,
      handle_modal_navigation, hf, handle_modal_actions, update_simple]

theorem C2_enter_stops_loop_witness :
    update openApplyModel (Message.KeyPress ⟨KeyCode.Enter, KeyEventKind.Press⟩) =
      (openApplyModel, false) ∧
    update openCancelModel (Message.KeyPress ⟨KeyCode.Enter, KeyEventKind.Press⟩) =
      (openCancelModel, false) :=
  ⟨C2_enter_stops_loop openApplyModel rfl (Or.inl rfl),
   C2_enter_stops_loop openCancelModel rfl (Or.inr rfl)⟩

set_option maxRecDepth 40000 in
/-- C10: the default widget's generated palette has exactly
rows × cols = 10 × 16 = 160 colors, so `selected_color` returns `some`
for every cursor within the bounds invariant. -/
theorem C10_selected_color_total (row col : Nat)
    (hr : row < 10) (hc : col < 16) :
    ColorPickerWidget.default.colors.length = 160 ∧
    ColorPickerWidget.default.grid_dimensions = (10, 16) ∧
    (ColorPickerWidget.selected_color
      { ColorPickerWidget.default with grid_index := (row, col) }).isSome = true := by
  have hlen : ColorPickerWidget.default.colors.length = 160 := by decide
  refine ⟨hlen, by decide, ?_⟩
  simp only [ColorPickerWidget.selected_color]
  have hidx : row * ColorPickerWidget.default.grid_dimensions.2 + col <
      ColorPickerWidget.default.colors.length := by
    have hdim2 : ColorPickerWidget.default.grid_dimensions.2 = 16 := by decide
    rw [hdim2, hlen]
    omega
  rw [List.get?_eq_get hidx]
  rfl

theorem C10_selected_color_total_witness :
    ColorPickerWidget.default.colors.length = 160 ∧
    ColorPickerWidget.default.grid_dimensions = (10, 16) ∧
    (ColorPickerWidget.selected_color
      { ColorPickerWidget.default with grid_index := (0, 0) }).isSome = true :=
  C10_selected_color_total 0 0 (by decide) (by decide)

end ColorPicker
